import Mathlib

/-!
Verification of the autonomous deployment orchestrator
(src/deployment/autonomous-deployment-orchestrator.py), as a shallow
embedding in Lean 4.  Python floats are modelled as rationals, Python
ints as naturals or integers, Python dicts with a fixed key set as
structures with Option-typed fields for keys that may be absent.
External collaborators (the realtime metrics collector and the
business-impact assessor used by the production monitoring loop, and the
stage-descriptor list plus decision-rule list of the pipeline
configuration) are passed as parameters, matching the spec: the core
treats them as pluggable providers.
-/

namespace DeployOrch

/-- Embeds enum RiskLevel of the source. -/
inductive RiskLevel
  | low
  | medium
  | high
  | critical
  deriving DecidableEq, Repr

/-- Embeds enum DeploymentStage of the source (the .value strings are
given by stageValue below). -/
inductive DeploymentStage
  | validation
  | build
  | test
  | deploy_development
  | deploy_staging
  | deploy_production
  | monitoring
  | rollback
  deriving DecidableEq, Repr

/-- The .value string of a DeploymentStage member. -/
def stageValue : DeploymentStage → String
  | DeploymentStage.validation => "validation"
  | DeploymentStage.build => "build"
  | DeploymentStage.test => "test"
  | DeploymentStage.deploy_development => "deploy_development"
  | DeploymentStage.deploy_staging => "deploy_staging"
  | DeploymentStage.deploy_production => "deploy_production"
  | DeploymentStage.monitoring => "monitoring"
  | DeploymentStage.rollback => "rollback"

/-- Embeds the expression stage.value.replace("deploy_", "deploy-") of
AutonomousDeploymentOrchestrator._execute_deployment_stage, written out
per member (the substring deploy_ occurs only as a leading prefix). -/
def stageConfigName : DeploymentStage → String
  | DeploymentStage.validation => "validation"
  | DeploymentStage.build => "build"
  | DeploymentStage.test => "test"
  | DeploymentStage.deploy_development => "deploy-development"
  | DeploymentStage.deploy_staging => "deploy-staging"
  | DeploymentStage.deploy_production => "deploy-production"
  | DeploymentStage.monitoring => "monitoring"
  | DeploymentStage.rollback => "rollback"

/-- Embeds dataclass QualityMetrics. -/
structure QualityMetrics where
  test_coverage : ℚ
  code_quality_score : ℚ
  security_vulnerabilities : ℕ
  performance_score : ℚ
  reliability_score : ℚ
  maintainability_score : ℚ
  deriving DecidableEq, Repr

/-- Embeds dataclass PerformanceMetrics (throughput is an int in the
source). -/
structure PerformanceMetrics where
  response_time_p95 : ℚ
  throughput : ℤ
  error_rate : ℚ
  cpu_utilization : ℚ
  memory_utilization : ℚ
  availability : ℚ
  deriving DecidableEq, Repr

/-- Embeds dataclass SecurityAssessment. -/
structure SecurityAssessment where
  vulnerability_count : ℕ
  security_score : ℚ
  compliance_score : ℚ
  threat_level : RiskLevel
  quantum_security_enabled : Bool
  zero_trust_validated : Bool
  deriving DecidableEq, Repr

/-- Embeds dataclass RiskAssessment; the predictive_analysis dict is a
key-value list (the source writes a single failure_probability key). -/
structure RiskAssessment where
  overall_risk_score : ℚ
  risk_level : RiskLevel
  risk_factors : List String
  mitigation_strategies : List String
  confidence_score : ℚ
  predictive_analysis : List (String × ℚ)
  deriving DecidableEq, Repr

/-- Embeds dataclass DeploymentDecision. -/
structure DeploymentDecision where
  decision : String
  confidence : ℚ
  reasoning : List String
  conditions : List String
  recommended_actions : List String
  autonomous_execution : Bool
  deriving DecidableEq, Repr

/-- Embeds the dict returned by DeploymentHistoryTracker.get_relevant_history. -/
structure HistoricalData where
  total_deployments : ℕ
  success_rate : ℚ
  average_deployment_time : ℚ
  similar_deployments : ℕ
  deriving DecidableEq, Repr

/-- Embeds dataclass DeploymentContext. -/
structure DeploymentContext where
  environment : String
  application_version : String
  deployment_strategy : String
  quality_metrics : QualityMetrics
  performance_metrics : PerformanceMetrics
  security_assessment : SecurityAssessment
  risk_assessment : RiskAssessment
  historical_data : HistoricalData
  deriving DecidableEq, Repr

/-- Embeds the deployment-request dict: the keys the core reads, each
possibly absent. -/
structure DeploymentRequest where
  environment : Option String
  version : Option String
  strategy : Option String
  deriving DecidableEq, Repr

/-- Embeds RiskAnalyzer._generate_mitigation_strategies. -/
def generate_mitigation_strategies (risk_factors : List String) : List String :=
  (if risk_factors.contains "Low test coverage" then
    ["Increase test coverage before deployment"] else []) ++
  (if risk_factors.contains "Security vulnerabilities present" then
    ["Fix all security vulnerabilities"] else []) ++
  (if risk_factors.contains "High error rate" then
    ["Investigate and fix error causes"] else []) ++
  (if risk_factors.contains "Low availability" then
    ["Improve system reliability"] else [])

/-- Embeds RiskAnalyzer.analyze_deployment_risk: four weighted risk
triggers accumulated in source order, then threshold bucketing. -/
def analyze_deployment_risk (context : DeploymentContext) : RiskAssessment :=
  let acc0 : List String × ℚ := ([], 0)
  let acc1 : List String × ℚ :=
    if context.quality_metrics.test_coverage < 80 then
      (acc0.1 ++ ["Low test coverage"], acc0.2 + 0.2) else acc0
  let acc2 : List String × ℚ :=
    if context.quality_metrics.security_vulnerabilities > 0 then
      (acc1.1 ++ ["Security vulnerabilities present"], acc1.2 + 0.3) else acc1
  let acc3 : List String × ℚ :=
    if context.performance_metrics.error_rate > 0.5 then
      (acc2.1 ++ ["High error rate"], acc2.2 + 0.2) else acc2
  let acc4 : List String × ℚ :=
    if context.performance_metrics.availability < 99.5 then
      (acc3.1 ++ ["Low availability"], acc3.2 + 0.15) else acc3
  let risk_level :=
    if acc4.2 ≥ 0.7 then RiskLevel.high
    else if acc4.2 ≥ 0.4 then RiskLevel.medium
    else RiskLevel.low
  { overall_risk_score := acc4.2
    risk_level := risk_level
    risk_factors := acc4.1
    mitigation_strategies := generate_mitigation_strategies acc4.1
    confidence_score := 0.85
    predictive_analysis := [("failure_probability", acc4.2 * 0.8)] }

/-- Embeds AIDeploymentEngine._calculate_quality_score. -/
def calculate_quality_score (metrics : QualityMetrics) : ℚ :=
  let security_score := max 0 (1 - (metrics.security_vulnerabilities : ℚ) / 10)
  let score :=
    0.25 * (metrics.test_coverage / 100) +
    0.25 * metrics.code_quality_score +
    0.25 * security_score +
    0.125 * metrics.performance_score +
    0.125 * metrics.reliability_score
  min 1 (max 0 score)

/-- Embeds AIDeploymentEngine._calculate_performance_score. -/
def calculate_performance_score (metrics : PerformanceMetrics) : ℚ :=
  let response_time_score := max 0 (1 - metrics.response_time_p95 / 500)
  let throughput_score := min 1 ((metrics.throughput : ℚ) / 2000)
  let error_rate_score := max 0 (1 - metrics.error_rate / 1)
  let availability_score := metrics.availability / 100
  let score := (response_time_score + throughput_score + error_rate_score +
    availability_score) / 4
  min 1 (max 0 score)

/-- Embeds AIDeploymentEngine._calculate_security_score. -/
def calculate_security_score (assessment : SecurityAssessment) : ℚ :=
  let base0 := assessment.security_score
  let base1 := if assessment.quantum_security_enabled then base0 + 0.05 else base0
  let base2 := if assessment.zero_trust_validated then base1 + 0.05 else base1
  let vulnerability_penalty := min 0.5 ((assessment.vulnerability_count : ℚ) * 0.1)
  max 0 (min 1 (base2 - vulnerability_penalty))

/-- The overall confidence computed inside
AIDeploymentEngine.make_deployment_decision: the mean of the four
sub-scores. -/
def overall_score (context : DeploymentContext) : ℚ :=
  (calculate_quality_score context.quality_metrics +
   calculate_performance_score context.performance_metrics +
   calculate_security_score context.security_assessment +
   (1 - context.risk_assessment.overall_risk_score)) / 4

/-- A configured decision rule of the pipeline configuration:
autonomous_decisions.deployment_approval entries. -/
structure DecisionRule where
  condition : String
  confidence : ℚ
  deriving DecidableEq, Repr

/-- Embeds AIDeploymentEngine._evaluate_rule_condition: the configured
condition text and the context are ignored, only the fixed overall-score
threshold is checked. -/
def evaluate_rule_condition (condition : String) (context : DeploymentContext)
    (score : ℚ) : Bool :=
  decide (score ≥ 0.85)

/-- Embeds AIDeploymentEngine.make_deployment_decision: first configured
rule whose condition evaluates true wins, else fixed thresholds on the
overall score. -/
def make_deployment_decision (decision_rules : List DecisionRule)
    (context : DeploymentContext) : DeploymentDecision :=
  let score := overall_score context
  match decision_rules.find?
      (fun rule => evaluate_rule_condition rule.condition context score) with
  | some rule =>
      { decision := "approve"
        confidence := rule.confidence
        reasoning := ["Condition met: " ++ rule.condition]
        conditions := []
        recommended_actions := []
        autonomous_execution := true }
  | none =>
      if score ≥ 0.9 then
        { decision := "approve"
          confidence := score
          reasoning := ["High overall quality score"]
          conditions := []
          recommended_actions := []
          autonomous_execution := true }
      else if score ≥ 0.7 then
        { decision := "conditional"
          confidence := score
          reasoning := ["Moderate quality score, conditions required"]
          conditions := ["enhanced_monitoring", "gradual_rollout"]
          recommended_actions := ["Monitor key metrics closely"]
          autonomous_execution := false }
      else
        { decision := "reject"
          confidence := 1 - score
          reasoning := ["Quality metrics below threshold"]
          conditions := []
          recommended_actions := ["Improve test coverage", "Fix security issues"]
          autonomous_execution := false }

/-- Embeds the per-stage result dicts: the union of the keys the built-in
stage executors write and the per-stage validator reads, each Option
because a given stage writes only some of them. -/
structure StageResult where
  validation_passed : Option Bool
  checks_completed : Option ℕ
  build_successful : Option Bool
  artifacts_created : Option (List String)
  tests_passed : Option Bool
  test_coverage : Option ℚ
  test_count : Option ℕ
  deployment_successful : Option Bool
  strategy : Option String
  monitoring_enabled : Option Bool
  dashboards_created : Option ℕ
  alerts_configured : Option ℕ
  deriving DecidableEq, Repr

/-- The empty result dict. -/
def StageResult.empty : StageResult :=
  ⟨none, none, none, none, none, none, none, none, none, none, none, none⟩

/-- Embeds AutonomousDeploymentOrchestrator._execute_validation_stage. -/
def execute_validation_stage (context : DeploymentContext) : StageResult :=
  { StageResult.empty with validation_passed := some true, checks_completed := some 15 }

/-- Embeds AutonomousDeploymentOrchestrator._execute_build_stage. -/
def execute_build_stage (context : DeploymentContext) : StageResult :=
  { StageResult.empty with
    build_successful := some true
    artifacts_created := some ["frontend", "api", "quantum"] }

/-- Embeds AutonomousDeploymentOrchestrator._execute_test_stage. -/
def execute_test_stage (context : DeploymentContext) : StageResult :=
  { StageResult.empty with
    tests_passed := some true
    test_coverage := some 89.5
    test_count := some 1247 }

/-- Embeds AutonomousDeploymentOrchestrator._execute_deploy_stage. -/
def execute_deploy_stage (stage : DeploymentStage) (context : DeploymentContext) :
    StageResult :=
  { StageResult.empty with
    deployment_successful := some true
    strategy := some context.deployment_strategy }

/-- Embeds AutonomousDeploymentOrchestrator._setup_monitoring: note it
writes no deployment_successful key. -/
def setup_monitoring (context : DeploymentContext) : StageResult :=
  { StageResult.empty with
    monitoring_enabled := some true
    dashboards_created := some 5
    alerts_configured := some 12 }

/-- Embeds AIDeploymentEngine.validate_stage_success: the test stage also
requires coverage at least 85, every stage outside validation, build and
test falls to the default deployment_successful check. -/
def validate_stage_success (stage : DeploymentStage) (result : StageResult) : Bool :=
  match stage with
  | DeploymentStage.validation => result.validation_passed.getD false
  | DeploymentStage.build => result.build_successful.getD false
  | DeploymentStage.test =>
      result.tests_passed.getD false && decide (result.test_coverage.getD 0 ≥ 85)
  | _ => result.deployment_successful.getD false

/-- Embeds the dict returned by
AIDeploymentEngine.determine_rollback_strategy; the targets key is Option
because the source never writes it. -/
structure RollbackStrategy where
  strategy : String
  reason : String
  targets : Option (List String)
  deriving DecidableEq, Repr

/-- Embeds AIDeploymentEngine.determine_rollback_strategy. -/
def determine_rollback_strategy (context : DeploymentContext)
    (prior_results : List (String × StageResult)) : RollbackStrategy :=
  if context.environment = "production" then
    { strategy := "immediate", reason := "Production safety priority", targets := none }
  else
    { strategy := "gradual", reason := "Non-production environment", targets := none }

/-- The rollback execution the orchestrator dispatches to. -/
inductive RollbackAction
  | immediate
  | gradual
  | targeted (targets : List String)
  | skipped
  deriving DecidableEq, Repr

/-- Embeds AutonomousDeploymentOrchestrator._initiate_intelligent_rollback:
the dispatch over the selected strategy; reading the absent targets key in
the targeted branch is the only failure point (a Python KeyError). -/
def initiate_intelligent_rollback (context : DeploymentContext)
    (prior_results : List (String × StageResult)) : Except String RollbackAction :=
  let rollback_strategy := determine_rollback_strategy context prior_results
  if rollback_strategy.strategy = "immediate" then
    Except.ok RollbackAction.immediate
  else if rollback_strategy.strategy = "gradual" then
    Except.ok RollbackAction.gradual
  else if rollback_strategy.strategy = "targeted" then
    match rollback_strategy.targets with
    | some targets => Except.ok (RollbackAction.targeted targets)
    | none => Except.error "KeyError: targets"
  else
    Except.ok RollbackAction.skipped

/-- Embeds the realtime metrics dict of
AutonomousDeploymentOrchestrator._collect_realtime_metrics. -/
structure RealtimeMetrics where
  response_time : ℚ
  error_rate : ℚ
  throughput : ℚ
  deriving DecidableEq, Repr

/-- The built-in _collect_realtime_metrics placeholder value. -/
def collect_realtime_metrics : RealtimeMetrics :=
  { response_time := 120.5, error_rate := 0.02, throughput := 2600 }

/-- The severity field of the built-in _assess_business_impact
placeholder. -/
def assess_business_impact_severity : RealtimeMetrics → ℚ :=
  fun _ => 0.1

/-- Embeds AnomalyDetector.detect_anomaly: a realtime sample is anomalous
when its response_time exceeds baseline response_time_p95 times 1.5. -/
def detect_anomaly (current_metrics : RealtimeMetrics)
    (baseline_metrics : PerformanceMetrics) : Bool :=
  decide (current_metrics.response_time > baseline_metrics.response_time_p95 * 1.5)

/-- What the monitoring loop did: flagged an anomaly at a tick, flagged
business impact at a tick, or ran all ticks. -/
inductive MonitorOutcome
  | anomaly (tick : ℕ)
  | impact (tick : ℕ)
  | completed
  deriving DecidableEq, Repr

/-- The tick recursion of
AutonomousDeploymentOrchestrator._continuous_production_monitoring: at
each tick a realtime sample is pulled from the external collector; an
anomaly or a business-impact severity above 0.7 breaks the loop. -/
def monitor_ticks (baseline : PerformanceMetrics) (sample : ℕ → RealtimeMetrics)
    (assess_severity : RealtimeMetrics → ℚ) : ℕ → ℕ → MonitorOutcome
  | 0, _ => MonitorOutcome.completed
  | fuel + 1, tick =>
      let current_metrics := sample tick
      if detect_anomaly current_metrics baseline then
        MonitorOutcome.anomaly tick
      else if assess_severity current_metrics > 0.7 then
        MonitorOutcome.impact tick
      else
        monitor_ticks baseline sample assess_severity fuel (tick + 1)

/-- Embeds AutonomousDeploymentOrchestrator._continuous_production_monitoring:
monitoring_duration 300 at check_interval 10 gives 30 ticks; the baseline
is the performance snapshot of the context. -/
def continuous_production_monitoring (context : DeploymentContext)
    (sample : ℕ → RealtimeMetrics) (assess_severity : RealtimeMetrics → ℚ) :
    MonitorOutcome :=
  monitor_ticks context.performance_metrics sample assess_severity 30 0

/-- Dispatch of AutonomousDeploymentOrchestrator._execute_deployment_stage
to the built-in stage executors (the ROLLBACK member matches no branch and
keeps the initial empty dict). -/
def builtin_stage_executor (stage : DeploymentStage) (context : DeploymentContext) :
    StageResult :=
  match stage with
  | DeploymentStage.validation => execute_validation_stage context
  | DeploymentStage.build => execute_build_stage context
  | DeploymentStage.test => execute_test_stage context
  | DeploymentStage.deploy_development => execute_deploy_stage stage context
  | DeploymentStage.deploy_staging => execute_deploy_stage stage context
  | DeploymentStage.deploy_production => execute_deploy_stage stage context
  | DeploymentStage.monitoring => setup_monitoring context
  | DeploymentStage.rollback => StageResult.empty

/-- Embeds AutonomousDeploymentOrchestrator._execute_deployment_stage:
looks the stage descriptor up by name in the configured stage list and
raises ValueError when it is missing. -/
def execute_deployment_stage (config_stages : List String)
    (context : DeploymentContext) (stage : DeploymentStage) :
    Except String StageResult :=
  let stage_name := stageConfigName stage
  if config_stages.contains stage_name then
    Except.ok (builtin_stage_executor stage context)
  else
    Except.error ("Stage configuration not found for " ++ stageValue stage)

/-- The environment-dependent stage list built at the top of
AutonomousDeploymentOrchestrator._execute_autonomous_deployment. -/
def deployment_stages (environment : String) : List DeploymentStage :=
  [DeploymentStage.validation, DeploymentStage.build, DeploymentStage.test] ++
  (if environment = "development" then
    [DeploymentStage.deploy_development]
  else if environment = "staging" then
    [DeploymentStage.deploy_development, DeploymentStage.deploy_staging]
  else
    [DeploymentStage.deploy_development, DeploymentStage.deploy_staging,
     DeploymentStage.deploy_production]) ++
  [DeploymentStage.monitoring]

/-- Embeds the result dict of
AutonomousDeploymentOrchestrator._execute_autonomous_deployment: the keys
of the three return shapes (success, failed, error), each Option when a
shape omits it. -/
structure RunResult where
  status : String
  failed_stage : Option String
  error_msg : Option String
  rollback_initiated : Option Bool
  results : List (String × StageResult)
  deployment_strategy : Option String
  monitoring_enabled : Option Bool
  deriving DecidableEq, Repr

/-- The stage loop of
AutonomousDeploymentOrchestrator._execute_autonomous_deployment: execute
the stage (an executor fault ends the run as error), record its result,
validate it (a failed validation ends the run as failed), run the
production monitor after a validated production deploy, and continue;
rollback is initiated on both failure paths.  The monitor outcome and the
rollback dispatch are bound and dropped exactly as the source drops their
None returns. -/
def run_stages (config_stages : List String) (context : DeploymentContext)
    (sample : ℕ → RealtimeMetrics) (assess_severity : RealtimeMetrics → ℚ) :
    List DeploymentStage → List (String × StageResult) → RunResult
  | [], results =>
      { status := "success", failed_stage := none, error_msg := none,
        rollback_initiated := none, results := results,
        deployment_strategy := some context.deployment_strategy,
        monitoring_enabled := some true }
  | stage :: rest, results =>
      match execute_deployment_stage config_stages context stage with
      | Except.error e =>
          let _rollback := initiate_intelligent_rollback context results
          { status := "error", failed_stage := some (stageValue stage),
            error_msg := some e, rollback_initiated := some true,
            results := results, deployment_strategy := none,
            monitoring_enabled := none }
      | Except.ok stage_result =>
          let results2 := results ++ [(stageValue stage, stage_result)]
          if validate_stage_success stage stage_result then
            if stage = DeploymentStage.deploy_production then
              let _monitor :=
                continuous_production_monitoring context sample assess_severity
              run_stages config_stages context sample assess_severity rest results2
            else
              run_stages config_stages context sample assess_severity rest results2
          else
            let _rollback := initiate_intelligent_rollback context results2
            { status := "failed", failed_stage := some (stageValue stage),
              error_msg := none, rollback_initiated := some true,
              results := results2, deployment_strategy := none,
              monitoring_enabled := none }

/-- Embeds AutonomousDeploymentOrchestrator._execute_autonomous_deployment. -/
def execute_autonomous_deployment (config_stages : List String)
    (context : DeploymentContext) (sample : ℕ → RealtimeMetrics)
    (assess_severity : RealtimeMetrics → ℚ) : RunResult :=
  run_stages config_stages context sample assess_severity
    (deployment_stages context.environment) []

/-- The result field of the orchestration outcome: the three shapes the
decision dispatch of orchestrate_deployment can produce. -/
inductive OrchestrationResult
  | executed (run : RunResult)
  | conditional_success (conditions_met : List String)
  | rejected (reason : List String) (recommendations : List String)
  deriving DecidableEq, Repr

/-- Embeds AutonomousDeploymentOrchestrator._execute_conditional_deployment:
it returns a conditional_success dict carrying the decision conditions and
invokes no stage. -/
def execute_conditional_deployment (context : DeploymentContext)
    (decision : DeploymentDecision) : OrchestrationResult :=
  OrchestrationResult.conditional_success decision.conditions

/-- The decision and result of one orchestration run. -/
structure OrchestrationOutcome where
  decision : DeploymentDecision
  result : OrchestrationResult
  deriving DecidableEq, Repr

/-- Embeds the decision phase and dispatch of
AutonomousDeploymentOrchestrator.orchestrate_deployment: backfill the risk
assessment into the context, make the decision, then run autonomously,
conditionally, or return rejected. -/
def orchestrate_deployment (config_stages : List String)
    (decision_rules : List DecisionRule) (context0 : DeploymentContext)
    (sample : ℕ → RealtimeMetrics) (assess_severity : RealtimeMetrics → ℚ) :
    OrchestrationOutcome :=
  let risk_assessment := analyze_deployment_risk context0
  let context := { context0 with risk_assessment := risk_assessment }
  let deployment_decision := make_deployment_decision decision_rules context
  let result :=
    if deployment_decision.decision = "approve" ∧
        deployment_decision.autonomous_execution = true then
      OrchestrationResult.executed
        (execute_autonomous_deployment config_stages context sample assess_severity)
    else if deployment_decision.decision = "conditional" then
      execute_conditional_deployment context deployment_decision
    else
      OrchestrationResult.rejected deployment_decision.reasoning
        deployment_decision.recommended_actions
  { decision := deployment_decision, result := result }

/-- Embeds DeploymentHistoryTracker.get_relevant_history: a total read of
the append-only log; only the length of the log is consulted, the other
summary fields are fixed placeholder constants. -/
def get_relevant_history {α : Type} (deployment_history : List α)
    (request : DeploymentRequest) : HistoricalData :=
  { total_deployments := deployment_history.length
    success_rate := 0.95
    average_deployment_time := 25
    similar_deployments := 15 }

/-!
Theorems for the claims.
-/

/-- C5: for every context the risk analyzer computes overall_risk_score as
the sum of the four fixed contributions (0.2 for test_coverage below 80,
0.3 for any security vulnerability, 0.2 for error_rate above 0.5, 0.15
for availability below 99.5), collects the matching factor labels in
evaluation order, and buckets the score with closed lower bounds 0.7 for
HIGH and 0.4 for MEDIUM, else LOW; CRITICAL is never emitted. -/
theorem c5_risk_score_factors_and_bucketing (context : DeploymentContext) :
    (analyze_deployment_risk context).overall_risk_score =
      (if context.quality_metrics.test_coverage < 80 then (0.2 : ℚ) else 0) +
      (if context.quality_metrics.security_vulnerabilities > 0 then (0.3 : ℚ) else 0) +
      (if context.performance_metrics.error_rate > 0.5 then (0.2 : ℚ) else 0) +
      (if context.performance_metrics.availability < 99.5 then (0.15 : ℚ) else 0) ∧
    (analyze_deployment_risk context).risk_factors =
      (if context.quality_metrics.test_coverage < 80 then
        ["Low test coverage"] else []) ++
      (if context.quality_metrics.security_vulnerabilities > 0 then
        ["Security vulnerabilities present"] else []) ++
      (if context.performance_metrics.error_rate > 0.5 then
        ["High error rate"] else []) ++
      (if context.performance_metrics.availability < 99.5 then
        ["Low availability"] else []) ∧
    (analyze_deployment_risk context).risk_level =
      (if (analyze_deployment_risk context).overall_risk_score ≥ 0.7 then
        RiskLevel.high
       else if (analyze_deployment_risk context).overall_risk_score ≥ 0.4 then
        RiskLevel.medium
       else RiskLevel.low) ∧
    (analyze_deployment_risk context).risk_level ≠ RiskLevel.critical := by
  by_cases h1 : context.quality_metrics.test_coverage < 80 <;>
    by_cases h2 : context.quality_metrics.security_vulnerabilities > 0 <;>
    by_cases h3 : context.performance_metrics.error_rate > 0.5 <;>
    by_cases h4 : context.performance_metrics.availability < 99.5 <;>
    simp [analyze_deployment_risk, h1, h2, h3, h4] <;> norm_num <;> decide

/-- C6: the rollback strategy is immediate exactly for the production
environment and gradual exactly otherwise; targeted is never selected. -/
theorem c6_rollback_strategy_immediate_iff_production
    (context : DeploymentContext) (prior_results : List (String × StageResult)) :
    ((determine_rollback_strategy context prior_results).strategy = "immediate" ↔
      context.environment = "production") ∧
    ((determine_rollback_strategy context prior_results).strategy = "gradual" ↔
      context.environment ≠ "production") ∧
    (determine_rollback_strategy context prior_results).strategy ≠ "targeted" := by
  unfold determine_rollback_strategy
  by_cases h : context.environment = "production" <;> simp [h]

/-- C10: for every context and prior-results value the selected rollback
strategy is immediate or gradual and never targeted, so rollback
initiation takes the immediate or gradual branch, never the targeted
branch that reads the absent targets key, and never fails. -/
theorem c10_rollback_initiation_never_reads_targets
    (context : DeploymentContext) (prior_results : List (String × StageResult)) :
    initiate_intelligent_rollback context prior_results =
      Except.ok (if context.environment = "production" then
        RollbackAction.immediate else RollbackAction.gradual) ∧
    ((determine_rollback_strategy context prior_results).strategy = "immediate" ∨
      (determine_rollback_strategy context prior_results).strategy = "gradual") ∧
    (determine_rollback_strategy context prior_results).strategy ≠ "targeted" := by
  unfold initiate_intelligent_rollback determine_rollback_strategy
  by_cases h : context.environment = "production" <;> simp [h]

/-- C4: when no configured approval rule fires, the decision is approve
with confidence equal to the overall score and autonomous execution for
overall at least 0.9, conditional with the two fixed conditions and no
autonomous execution for overall at least 0.7, and reject with confidence
one minus the overall score otherwise, where the overall score is the mean
of the quality, performance, security and risk-complement sub-scores. -/
theorem c4_default_decision_thresholds (decision_rules : List DecisionRule)
    (context : DeploymentContext)
    (hrules : ∀ rule ∈ decision_rules,
      evaluate_rule_condition rule.condition context (overall_score context) = false) :
    overall_score context =
      (calculate_quality_score context.quality_metrics +
       calculate_performance_score context.performance_metrics +
       calculate_security_score context.security_assessment +
       (1 - context.risk_assessment.overall_risk_score)) / 4 ∧
    (overall_score context ≥ 0.9 →
      (make_deployment_decision decision_rules context).decision = "approve" ∧
      (make_deployment_decision decision_rules context).confidence =
        overall_score context ∧
      (make_deployment_decision decision_rules context).autonomous_execution = true) ∧
    (¬overall_score context ≥ 0.9 → overall_score context ≥ 0.7 →
      (make_deployment_decision decision_rules context).decision = "conditional" ∧
      (make_deployment_decision decision_rules context).confidence =
        overall_score context ∧
      (make_deployment_decision decision_rules context).conditions =
        ["enhanced_monitoring", "gradual_rollout"] ∧
      (make_deployment_decision decision_rules context).autonomous_execution = false) ∧
    (¬overall_score context ≥ 0.7 →
      (make_deployment_decision decision_rules context).decision = "reject" ∧
      (make_deployment_decision decision_rules context).confidence =
        1 - overall_score context ∧
      (make_deployment_decision decision_rules context).autonomous_execution = false) := by
  have hfind : decision_rules.find? (fun rule =>
      evaluate_rule_condition rule.condition context (overall_score context)) = none := by
    apply List.find?_eq_none.mpr
    intro rule hr
    simp [hrules rule hr]
  refine ⟨rfl, ?_, ?_, ?_⟩
  · intro h9
    simp [make_deployment_decision, hfind, h9]
  · intro h9 h7
    simp [make_deployment_decision, hfind, h9, h7]
  · intro h7
    have h9 : ¬overall_score context ≥ 0.9 := by
      intro h
      exact h7 (by linarith)
    simp [make_deployment_decision, hfind, h9, h7]

/-- A quality snapshot with every sub-metric at its best value. -/
def perfectQuality : QualityMetrics := ⟨100, 1, 0, 1, 1, 1⟩

/-- A performance snapshot with every sub-metric at its best value. -/
def perfectPerformance : PerformanceMetrics := ⟨0, 2000, 0, 0, 0, 100⟩

/-- A security snapshot with every sub-metric at its best value. -/
def perfectSecurity : SecurityAssessment := ⟨0, 1, 1, RiskLevel.low, true, true⟩

/-- The zero-value risk placeholder the orchestrator builds the context
with before the risk backfill. -/
def zeroRisk : RiskAssessment := ⟨0, RiskLevel.low, [], [], 0, []⟩

/-- A neutral historical-data value. -/
def noHistory : HistoricalData := ⟨0, 0, 0, 0⟩

/-- A context whose overall score is 1. -/
def c4ctx : DeploymentContext :=
  ⟨"production", "4.0.0", "blue-green", perfectQuality, perfectPerformance,
   perfectSecurity, zeroRisk, noHistory⟩

/-- Witness for C4: with no configured rules and a perfect context the
overall score reaches the 0.9 branch and the decision is an autonomous
approve. -/
theorem c4_default_decision_thresholds_witness :
    overall_score c4ctx ≥ 0.9 ∧
    (make_deployment_decision [] c4ctx).decision = "approve" ∧
    (make_deployment_decision [] c4ctx).autonomous_execution = true := by
  have h9 : overall_score c4ctx ≥ 0.9 := by
    norm_num [overall_score, calculate_quality_score, calculate_performance_score,
      calculate_security_score, c4ctx, perfectQuality, perfectPerformance,
      perfectSecurity, zeroRisk, min_def, max_def]
  have h := (c4_default_decision_thresholds [] c4ctx (by simp)).2.1 h9
  exact ⟨h9, h.1, h.2.2⟩

/-- An empty deployment request. -/
def request0 : DeploymentRequest := ⟨none, none, none⟩

/-- C8 counterexample: on an empty history log the relevant-history
summary is not all zero: total_deployments is 0 but success_rate is 0.95,
average_deployment_time is 25 and similar_deployments is 15 — fixed
placeholder constants asserting history that does not exist. -/
theorem c8_counterexample_empty_history_not_zero :
    (get_relevant_history ([] : List ℕ) request0).total_deployments = 0 ∧
    (get_relevant_history ([] : List ℕ) request0).success_rate = 0.95 ∧
    (get_relevant_history ([] : List ℕ) request0).average_deployment_time = 25 ∧
    (get_relevant_history ([] : List ℕ) request0).similar_deployments = 15 ∧
    ¬((get_relevant_history ([] : List ℕ) request0).success_rate = 0 ∧
      (get_relevant_history ([] : List ℕ) request0).average_deployment_time = 0 ∧
      (get_relevant_history ([] : List ℕ) request0).similar_deployments = 0) := by
  refine ⟨rfl, rfl, rfl, rfl, ?_⟩
  intro h
  exact absurd h.2.2 (by decide)

/-- C8 amended: for every request the relevant-history query on an empty
log returns, without error (the read is total), a summary whose
total_deployments is 0 but whose remaining fields are the fixed
placeholder constants 0.95, 25 and 15 rather than a zero summary. -/
theorem c8_amended_empty_history_fixed_constants {α : Type}
    (request : DeploymentRequest) :
    get_relevant_history ([] : List α) request =
      { total_deployments := 0
        success_rate := 0.95
        average_deployment_time := 25
        similar_deployments := 15 } := rfl

/-- C7: with test_coverage 60 and two security vulnerabilities (and no
other risk trigger firing) the risk score is exactly 0.5 with level
MEDIUM, and after the risk backfill the decision is never an autonomous
approve: the overall score is at most 0.8375, below both the configured
rule threshold 0.85 and the approve threshold 0.9. -/
theorem c7_moderate_risk_never_autonomous_approve
    (context : DeploymentContext) (decision_rules : List DecisionRule)
    (hcov : context.quality_metrics.test_coverage = 60)
    (hvuln : context.quality_metrics.security_vulnerabilities = 2)
    (herr : context.performance_metrics.error_rate ≤ 0.5)
    (havail : 99.5 ≤ context.performance_metrics.availability)
    (hcq : context.quality_metrics.code_quality_score ≤ 1)
    (hps : context.quality_metrics.performance_score ≤ 1)
    (hrs : context.quality_metrics.reliability_score ≤ 1) :
    (analyze_deployment_risk context).overall_risk_score = 0.5 ∧
    (analyze_deployment_risk context).risk_level = RiskLevel.medium ∧
    (make_deployment_decision decision_rules
      { context with risk_assessment := analyze_deployment_risk context }).decision ≠
      "approve" ∧
    (make_deployment_decision decision_rules
      { context with risk_assessment := analyze_deployment_risk context
        }).autonomous_execution = false := by
  have h3 : ¬context.performance_metrics.error_rate > 0.5 := not_lt.mpr herr
  have h4 : ¬context.performance_metrics.availability < 99.5 := not_lt.mpr havail
  have hscore : (analyze_deployment_risk context).overall_risk_score = 0.5 := by
    simp only [analyze_deployment_risk]
    rw [hcov, hvuln]
    norm_num
    split_ifs with ha hb <;> first | linarith | norm_num
  have hlevel : (analyze_deployment_risk context).risk_level = RiskLevel.medium := by
    simp only [analyze_deployment_risk]
    rw [hcov, hvuln]
    norm_num
    split_ifs with ha hb <;> first | linarith | norm_num
  have hq : calculate_quality_score context.quality_metrics ≤ 0.85 := by
    have hmax : max (0 : ℚ)
        (1 - (context.quality_metrics.security_vulnerabilities : ℚ) / 10) = 0.8 := by
      rw [hvuln]; norm_num
    simp only [calculate_quality_score, hmax, hcov]
    refine le_trans (min_le_right _ _) (max_le (by norm_num) ?_)
    linarith
  have hp : calculate_performance_score context.performance_metrics ≤ 1 := by
    simp only [calculate_performance_score]
    exact min_le_left _ _
  have hs : calculate_security_score context.security_assessment ≤ 1 := by
    simp only [calculate_security_score]
    exact max_le (by norm_num) (min_le_left _ _)
  have hov : overall_score
      { context with risk_assessment := analyze_deployment_risk context } < 0.85 := by
    have heq : overall_score
        { context with risk_assessment := analyze_deployment_risk context } =
        (calculate_quality_score context.quality_metrics +
         calculate_performance_score context.performance_metrics +
         calculate_security_score context.security_assessment +
         (1 - (analyze_deployment_risk context).overall_risk_score)) / 4 := rfl
    rw [heq, hscore]
    linarith
  have hfind : decision_rules.find? (fun rule =>
      evaluate_rule_condition rule.condition
        { context with risk_assessment := analyze_deployment_risk context }
        (overall_score
          { context with risk_assessment := analyze_deployment_risk context })) =
      none := by
    apply List.find?_eq_none.mpr
    intro rule hr
    simp [evaluate_rule_condition]
    linarith
  have h9 : ¬overall_score
      { context with risk_assessment := analyze_deployment_risk context } ≥ 0.9 := by
    intro h
    linarith
  refine ⟨hscore, hlevel, ?_⟩
  by_cases h7 : overall_score
      { context with risk_assessment := analyze_deployment_risk context } ≥ 0.7 <;>
    simp [make_deployment_decision, hfind, h9, h7]

/-- A concrete context for scenario B: coverage 60, two vulnerabilities,
all other metrics healthy. -/
def c7ctx : DeploymentContext :=
  ⟨"production", "4.0.0", "blue-green", ⟨60, 0.9, 2, 0.9, 0.9, 0.9⟩,
   ⟨145.7, 2500, 0.05, 65.2, 58.7, 99.97⟩, ⟨0, 0.95, 0.98, RiskLevel.low, true, true⟩,
   zeroRisk, noHistory⟩

/-- Witness for C7 at the concrete scenario-B context. -/
theorem c7_moderate_risk_never_autonomous_approve_witness :
    (analyze_deployment_risk c7ctx).overall_risk_score = 0.5 ∧
    (analyze_deployment_risk c7ctx).risk_level = RiskLevel.medium ∧
    (make_deployment_decision []
      { c7ctx with risk_assessment := analyze_deployment_risk c7ctx }).decision ≠
      "approve" := by
  have h := c7_moderate_risk_never_autonomous_approve c7ctx []
    (by norm_num [c7ctx]) (by norm_num [c7ctx]) (by norm_num [c7ctx])
    (by norm_num [c7ctx]) (by norm_num [c7ctx]) (by norm_num [c7ctx])
    (by norm_num [c7ctx])
  exact ⟨h.1, h.2.1, h.2.2.1⟩

/-- The built-in validation stage result passes its validation. -/
theorem validate_validation_builtin (context : DeploymentContext) :
    validate_stage_success DeploymentStage.validation
      (builtin_stage_executor DeploymentStage.validation context) = true := rfl

/-- The built-in build stage result passes its validation. -/
theorem validate_build_builtin (context : DeploymentContext) :
    validate_stage_success DeploymentStage.build
      (builtin_stage_executor DeploymentStage.build context) = true := rfl

/-- The built-in test stage result passes its validation: tests pass and
coverage 89.5 meets the 85 bound. -/
theorem validate_test_builtin (context : DeploymentContext) :
    validate_stage_success DeploymentStage.test
      (builtin_stage_executor DeploymentStage.test context) = true := by
  simp [validate_stage_success, builtin_stage_executor, execute_test_stage,
    StageResult.empty]
  norm_num

/-- The built-in development deploy stage result passes its validation. -/
theorem validate_deploy_development_builtin (context : DeploymentContext) :
    validate_stage_success DeploymentStage.deploy_development
      (builtin_stage_executor DeploymentStage.deploy_development context) = true := rfl

/-- The built-in staging deploy stage result passes its validation. -/
theorem validate_deploy_staging_builtin (context : DeploymentContext) :
    validate_stage_success DeploymentStage.deploy_staging
      (builtin_stage_executor DeploymentStage.deploy_staging context) = true := rfl

/-- The built-in production deploy stage result passes its validation. -/
theorem validate_deploy_production_builtin (context : DeploymentContext) :
    validate_stage_success DeploymentStage.deploy_production
      (builtin_stage_executor DeploymentStage.deploy_production context) = true := rfl

/-- The built-in monitoring stage result fails its validation: the
monitoring executor writes no deployment_successful key, so the default
check reads false. -/
theorem validate_monitoring_builtin (context : DeploymentContext) :
    validate_stage_success DeploymentStage.monitoring
      (builtin_stage_executor DeploymentStage.monitoring context) = false := rfl

/-- One pipeline step whose stage descriptor is present and whose built-in
result validates advances to the rest of the stage list. -/
theorem run_stages_cons_ok (config_stages : List String)
    (context : DeploymentContext) (sample : ℕ → RealtimeMetrics)
    (assess_severity : RealtimeMetrics → ℚ) (stage : DeploymentStage)
    (rest : List DeploymentStage) (results : List (String × StageResult))
    (hconf : config_stages.contains (stageConfigName stage) = true)
    (hval : validate_stage_success stage (builtin_stage_executor stage context) = true) :
    run_stages config_stages context sample assess_severity (stage :: rest) results =
      run_stages config_stages context sample assess_severity rest
        (results ++ [(stageValue stage, builtin_stage_executor stage context)]) := by
  have hmem : stageConfigName stage ∈ config_stages := by simpa using hconf
  by_cases hprod : stage = DeploymentStage.deploy_production
  · subst hprod
    simp [run_stages, execute_deployment_stage, hmem, hval]
  · simp [run_stages, execute_deployment_stage, hmem, hval, hprod]

/-- One pipeline step whose stage descriptor is present but whose built-in
result fails validation ends the run as failed with rollback initiated. -/
theorem run_stages_cons_invalid (config_stages : List String)
    (context : DeploymentContext) (sample : ℕ → RealtimeMetrics)
    (assess_severity : RealtimeMetrics → ℚ) (stage : DeploymentStage)
    (rest : List DeploymentStage) (results : List (String × StageResult))
    (hconf : config_stages.contains (stageConfigName stage) = true)
    (hval : validate_stage_success stage (builtin_stage_executor stage context) = false) :
    run_stages config_stages context sample assess_severity (stage :: rest) results =
      { status := "failed", failed_stage := some (stageValue stage),
        error_msg := none, rollback_initiated := some true,
        results := results ++ [(stageValue stage, builtin_stage_executor stage context)],
        deployment_strategy := none, monitoring_enabled := none } := by
  have hmem : stageConfigName stage ∈ config_stages := by simpa using hconf
  simp [run_stages, execute_deployment_stage, hmem, hval]

/-- One pipeline step whose stage descriptor is missing ends the run as an
error with rollback initiated and without a result entry for the stage. -/
theorem run_stages_cons_missing (config_stages : List String)
    (context : DeploymentContext) (sample : ℕ → RealtimeMetrics)
    (assess_severity : RealtimeMetrics → ℚ) (stage : DeploymentStage)
    (rest : List DeploymentStage) (results : List (String × StageResult))
    (hconf : config_stages.contains (stageConfigName stage) = false) :
    run_stages config_stages context sample assess_severity (stage :: rest) results =
      { status := "error", failed_stage := some (stageValue stage),
        error_msg := some ("Stage configuration not found for " ++ stageValue stage),
        rollback_initiated := some true, results := results,
        deployment_strategy := none, monitoring_enabled := none } := by
  have hmem : stageConfigName stage ∉ config_stages := by simpa using hconf
  simp [run_stages, execute_deployment_stage, hmem]

/-- The stage loop never reads the monitor outcome: its result is the same
for any realtime sample stream and any business-impact assessor. -/
theorem run_stages_monitor_independent (config_stages : List String)
    (context : DeploymentContext) (s1 s2 : ℕ → RealtimeMetrics)
    (a1 a2 : RealtimeMetrics → ℚ) :
    ∀ (stages : List DeploymentStage) (results : List (String × StageResult)),
      run_stages config_stages context s1 a1 stages results =
      run_stages config_stages context s2 a2 stages results := by
  intro stages
  induction stages with
  | nil => intro results; rfl
  | cons stage rest ih =>
      intro results
      unfold run_stages
      cases hexec : execute_deployment_stage config_stages context stage with
      | error e => rfl
      | ok stage_result =>
          by_cases hval : validate_stage_success stage stage_result <;>
            by_cases hprod : stage = DeploymentStage.deploy_production <;>
            simp [hval, hprod, ih]

/-- If every tick before t is quiet and tick t is below the fuel bound,
the monitoring recursion stops exactly at t when t flags an anomaly, and
at t as business impact when t only breaches the severity bound. -/
theorem monitor_ticks_first_flag (baseline : PerformanceMetrics)
    (sample : ℕ → RealtimeMetrics) (assess_severity : RealtimeMetrics → ℚ) :
    ∀ (fuel start t : ℕ), start ≤ t → t < start + fuel →
      (∀ j, start ≤ j → j < t → detect_anomaly (sample j) baseline = false ∧
        ¬assess_severity (sample j) > 0.7) →
      (detect_anomaly (sample t) baseline = true →
        monitor_ticks baseline sample assess_severity fuel start =
          MonitorOutcome.anomaly t) ∧
      (detect_anomaly (sample t) baseline = false →
        assess_severity (sample t) > 0.7 →
        monitor_ticks baseline sample assess_severity fuel start =
          MonitorOutcome.impact t) := by
  intro fuel
  induction fuel with
  | zero => intro start t h1 h2 _; omega
  | succ n ih =>
      intro start t hst hlt hquiet
      by_cases hs : start = t
      · subst hs
        constructor
        · intro hdet
          unfold monitor_ticks
          simp [hdet]
        · intro hdet himp
          unfold monitor_ticks
          simp [hdet, himp]
      · have hlt2 : start < t := lt_of_le_of_ne hst hs
        have hq := hquiet start le_rfl hlt2
        unfold monitor_ticks
        simp only [hq.1, hq.2, Bool.false_eq_true, if_false]
        exact ih (start + 1) t hlt2 (by omega)
          (fun j hj1 hj2 => hquiet j (by omega) hj2)

/-- C9: for every stage other than validation, build and test the
validator returns exactly the deployment_successful flag (false when
absent), and since the built-in monitoring executor writes no such flag,
every autonomous run whose configuration carries all stage descriptors
ends failed at the monitoring stage with rollback initiated instead of
ending in success. -/
theorem c9_monitoring_stage_always_fails_validation (stage : DeploymentStage)
    (result : StageResult) (config_stages : List String)
    (context : DeploymentContext) (sample : ℕ → RealtimeMetrics)
    (assess_severity : RealtimeMetrics → ℚ)
    (hsv : stage ≠ DeploymentStage.validation)
    (hsb : stage ≠ DeploymentStage.build)
    (hst : stage ≠ DeploymentStage.test)
    (hc1 : config_stages.contains "validation" = true)
    (hc2 : config_stages.contains "build" = true)
    (hc3 : config_stages.contains "test" = true)
    (hc4 : config_stages.contains "deploy-development" = true)
    (hc5 : config_stages.contains "deploy-staging" = true)
    (hc6 : config_stages.contains "deploy-production" = true)
    (hc7 : config_stages.contains "monitoring" = true) :
    validate_stage_success stage result = result.deployment_successful.getD false ∧
    (execute_autonomous_deployment config_stages context sample
      assess_severity).status = "failed" ∧
    (execute_autonomous_deployment config_stages context sample
      assess_severity).failed_stage = some "monitoring" ∧
    (execute_autonomous_deployment config_stages context sample
      assess_severity).rollback_initiated = some true := by
  constructor
  · cases stage <;> first | rfl | simp at hsv hsb hst
  · have hrun : (execute_autonomous_deployment config_stages context sample
        assess_severity).status = "failed" ∧
        (execute_autonomous_deployment config_stages context sample
          assess_severity).failed_stage = some "monitoring" ∧
        (execute_autonomous_deployment config_stages context sample
          assess_severity).rollback_initiated = some true := by
      have m1 : "validation" ∈ config_stages := by simpa using hc1
      have m2 : "build" ∈ config_stages := by simpa using hc2
      have m3 : "test" ∈ config_stages := by simpa using hc3
      have m4 : "deploy-development" ∈ config_stages := by simpa using hc4
      have m5 : "deploy-staging" ∈ config_stages := by simpa using hc5
      have m6 : "deploy-production" ∈ config_stages := by simpa using hc6
      have m7 : "monitoring" ∈ config_stages := by simpa using hc7
      unfold execute_autonomous_deployment deployment_stages
      by_cases hdev : context.environment = "development" <;>
        by_cases hstg : context.environment = "staging" <;>
        simp [hdev, hstg, run_stages_cons_ok, run_stages_cons_invalid,
          stageConfigName, m1, m2, m3, m4, m5, m6, m7,
          validate_validation_builtin, validate_build_builtin,
          validate_test_builtin, validate_deploy_development_builtin,
          validate_deploy_staging_builtin, validate_deploy_production_builtin,
          validate_monitoring_builtin, stageValue]
    exact hrun

/-- A configured stage list carrying every descriptor the pipeline can
ask for. -/
def cfgAll : List String :=
  ["validation", "build", "test", "deploy-development", "deploy-staging",
   "deploy-production", "monitoring"]

/-- The constant realtime sample stream of the built-in collector. -/
def sample0 : ℕ → RealtimeMetrics := fun _ => collect_realtime_metrics

/-- Witness for C9 at the monitoring stage, the full configuration and a
concrete production context. -/
theorem c9_monitoring_stage_always_fails_validation_witness :
    validate_stage_success DeploymentStage.monitoring StageResult.empty =
      StageResult.empty.deployment_successful.getD false ∧
    (execute_autonomous_deployment cfgAll c4ctx sample0
      assess_business_impact_severity).status = "failed" ∧
    (execute_autonomous_deployment cfgAll c4ctx sample0
      assess_business_impact_severity).failed_stage = some "monitoring" := by
  have h := c9_monitoring_stage_always_fails_validation DeploymentStage.monitoring
    StageResult.empty cfgAll c4ctx sample0 assess_business_impact_severity
    (by decide) (by decide) (by decide) (by decide) (by decide) (by decide)
    (by decide) (by decide) (by decide) (by decide)
  exact ⟨h.1, h.2.1, h.2.2.1⟩

/-- A configured stage list missing the deploy-staging descriptor. -/
def cfg3 : List String :=
  ["validation", "build", "test", "deploy-development", "deploy-production",
   "monitoring"]

/-- C3 counterexample: with the deploy-staging descriptor missing from the
configuration, a production run executes validation, build, test and the
development deploy before aborting, and the error result reports
rollback_initiated = true — the run is neither aborted before any stage
runs nor free of rollback. -/
theorem c3_counterexample_missing_descriptor_still_rolls_back :
    (execute_autonomous_deployment cfg3 c4ctx sample0
      assess_business_impact_severity).status = "error" ∧
    (execute_autonomous_deployment cfg3 c4ctx sample0
      assess_business_impact_severity).rollback_initiated = some true ∧
    (execute_autonomous_deployment cfg3 c4ctx sample0
      assess_business_impact_severity).results.map Prod.fst =
      ["validation", "build", "test", "deploy_development"] := by
  have h1 : ("production" : String) ≠ "development" := by decide
  have h2 : ("production" : String) ≠ "staging" := by decide
  have m1 : "validation" ∈ cfg3 := by decide
  have m2 : "build" ∈ cfg3 := by decide
  have m3 : "test" ∈ cfg3 := by decide
  have m4 : "deploy-development" ∈ cfg3 := by decide
  have m5 : "deploy-staging" ∉ cfg3 := by decide
  unfold execute_autonomous_deployment deployment_stages
  simp [c4ctx, h1, h2, run_stages_cons_ok, run_stages_cons_missing,
    stageConfigName, m1, m2, m3, m4, m5,
    validate_validation_builtin, validate_build_builtin, validate_test_builtin,
    validate_deploy_development_builtin, stageValue]

/-- C3 amended: a missing stage descriptor raises inside the stage loop;
the run ends as an error result naming that stage, the stages before it
have already run and their results are retained, and rollback IS initiated
(the result reports rollback_initiated = true). -/
theorem c3_amended_missing_descriptor_errors_with_rollback
    (config_stages : List String) (context : DeploymentContext)
    (sample : ℕ → RealtimeMetrics) (assess_severity : RealtimeMetrics → ℚ)
    (henv : context.environment = "production")
    (hc1 : config_stages.contains "validation" = true)
    (hc2 : config_stages.contains "build" = true)
    (hc3 : config_stages.contains "test" = true)
    (hc4 : config_stages.contains "deploy-development" = true)
    (hc5 : config_stages.contains "deploy-staging" = false) :
    execute_autonomous_deployment config_stages context sample assess_severity =
      { status := "error", failed_stage := some "deploy_staging",
        error_msg := some ("Stage configuration not found for " ++
          stageValue DeploymentStage.deploy_staging),
        rollback_initiated := some true,
        results := [("validation", builtin_stage_executor DeploymentStage.validation context),
                    ("build", builtin_stage_executor DeploymentStage.build context),
                    ("test", builtin_stage_executor DeploymentStage.test context),
                    ("deploy_development",
                      builtin_stage_executor DeploymentStage.deploy_development context)],
        deployment_strategy := none, monitoring_enabled := none } := by
  have h1 : ("production" : String) ≠ "development" := by decide
  have h2 : ("production" : String) ≠ "staging" := by decide
  have m1 : "validation" ∈ config_stages := by simpa using hc1
  have m2 : "build" ∈ config_stages := by simpa using hc2
  have m3 : "test" ∈ config_stages := by simpa using hc3
  have m4 : "deploy-development" ∈ config_stages := by simpa using hc4
  have m5 : "deploy-staging" ∉ config_stages := by simpa using hc5
  unfold execute_autonomous_deployment deployment_stages
  rw [henv]
  simp [h1, h2, run_stages_cons_ok, run_stages_cons_missing,
    stageConfigName, m1, m2, m3, m4, m5,
    validate_validation_builtin, validate_build_builtin, validate_test_builtin,
    validate_deploy_development_builtin, stageValue]

/-- Witness for the amended C3 at the concrete configuration missing the
deploy-staging descriptor. -/
theorem c3_amended_missing_descriptor_errors_with_rollback_witness :
    execute_autonomous_deployment cfg3 c4ctx sample0
      assess_business_impact_severity =
      { status := "error", failed_stage := some "deploy_staging",
        error_msg := some ("Stage configuration not found for " ++
          stageValue DeploymentStage.deploy_staging),
        rollback_initiated := some true,
        results := [("validation", builtin_stage_executor DeploymentStage.validation c4ctx),
                    ("build", builtin_stage_executor DeploymentStage.build c4ctx),
                    ("test", builtin_stage_executor DeploymentStage.test c4ctx),
                    ("deploy_development",
                      builtin_stage_executor DeploymentStage.deploy_development c4ctx)],
        deployment_strategy := none, monitoring_enabled := none } :=
  c3_amended_missing_descriptor_errors_with_rollback cfg3 c4ctx sample0
    assess_business_impact_severity rfl (by decide) (by decide) (by decide)
    (by decide) (by decide)

/-- C1 amended: when the production monitor observes its first flagged
tick t inside the window (an anomalous sample, or one whose business
impact severity exceeds 0.7), the monitoring loop exits early at that
tick; but the orchestrator does not treat the production-deploy stage as
failed and initiates no rollback on account of the monitor findings: the
pipeline result is identical for any sample stream and any severity
assessor, so the run continues exactly as if the monitor had observed
nothing. -/
theorem c1_monitor_flag_exits_early_without_failing_stage
    (context : DeploymentContext) (sample : ℕ → RealtimeMetrics)
    (assess_severity : RealtimeMetrics → ℚ) (t : ℕ) (ht : t < 30)
    (hquiet : ∀ j, j < t →
      detect_anomaly (sample j) context.performance_metrics = false ∧
      ¬assess_severity (sample j) > 0.7)
    (config_stages : List String) (sample2 : ℕ → RealtimeMetrics)
    (assess2 : RealtimeMetrics → ℚ) :
    (detect_anomaly (sample t) context.performance_metrics = true →
      continuous_production_monitoring context sample assess_severity =
        MonitorOutcome.anomaly t) ∧
    (detect_anomaly (sample t) context.performance_metrics = false →
      assess_severity (sample t) > 0.7 →
      continuous_production_monitoring context sample assess_severity =
        MonitorOutcome.impact t) ∧
    execute_autonomous_deployment config_stages context sample assess_severity =
      execute_autonomous_deployment config_stages context sample2 assess2 := by
  have hm := monitor_ticks_first_flag context.performance_metrics sample
    assess_severity 30 0 t (Nat.zero_le t) (by omega)
    (fun j _ hj2 => hquiet j hj2)
  exact ⟨hm.1, hm.2,
    run_stages_monitor_independent config_stages context sample sample2
      assess_severity assess2 (deployment_stages context.environment) []⟩

/-- A production context whose baseline response_time_p95 is 100, so the
anomaly threshold is 150. -/
def ctx1 : DeploymentContext :=
  ⟨"production", "4.0.0", "blue-green", perfectQuality, ⟨100, 2000, 0, 0, 0, 100⟩,
   perfectSecurity, zeroRisk, noHistory⟩

/-- A sample stream that is quiet at ticks 0 and 1 and anomalous from
tick 2 on (response_time 1000 against threshold 150). -/
def sampleCE : ℕ → RealtimeMetrics :=
  fun tick => if tick < 2 then ⟨100, 0.02, 2600⟩ else ⟨1000, 0.02, 2600⟩

/-- A sample stream that never flags anything for baseline 100. -/
def sampleQuiet : ℕ → RealtimeMetrics := fun _ => ⟨100, 0.02, 2600⟩

/-- Witness for the amended C1: at the concrete anomalous stream the loop
exits at tick 2, and the pipeline result equals the quiet-stream run. -/
theorem c1_monitor_flag_exits_early_without_failing_stage_witness :
    continuous_production_monitoring ctx1 sampleCE assess_business_impact_severity =
      MonitorOutcome.anomaly 2 ∧
    execute_autonomous_deployment cfgAll ctx1 sampleCE
      assess_business_impact_severity =
    execute_autonomous_deployment cfgAll ctx1 sampleQuiet
      assess_business_impact_severity := by
  have h := c1_monitor_flag_exits_early_without_failing_stage ctx1 sampleCE
    assess_business_impact_severity 2 (by norm_num)
    (by
      intro j hj
      interval_cases j <;>
        constructor <;>
        simp [detect_anomaly, sampleCE, ctx1, assess_business_impact_severity] <;>
        norm_num)
    cfgAll sampleQuiet assess_business_impact_severity
  refine ⟨h.1 ?_, h.2.2⟩
  simp [detect_anomaly, sampleCE, ctx1]
  norm_num

/-- C1 counterexample: the monitor flags an anomaly at tick 2 of a
production run (so the monitoring loop exits at tick 2), yet the
production-deploy stage is not treated as failed: the pipeline result is
identical to the quiet-stream run, its failed stage is the monitoring
stage, not deploy_production, and every stage after the production deploy
still ran. -/
theorem c1_counterexample_no_rollback_from_monitor :
    continuous_production_monitoring ctx1 sampleCE assess_business_impact_severity =
      MonitorOutcome.anomaly 2 ∧
    execute_autonomous_deployment cfgAll ctx1 sampleCE
      assess_business_impact_severity =
      execute_autonomous_deployment cfgAll ctx1 sampleQuiet
        assess_business_impact_severity ∧
    (execute_autonomous_deployment cfgAll ctx1 sampleCE
      assess_business_impact_severity).failed_stage ≠ some "deploy_production" ∧
    (execute_autonomous_deployment cfgAll ctx1 sampleCE
      assess_business_impact_severity).results.map Prod.fst =
      ["validation", "build", "test", "deploy_development", "deploy_staging",
       "deploy_production", "monitoring"] := by
  have hmon : continuous_production_monitoring ctx1 sampleCE
      assess_business_impact_severity = MonitorOutcome.anomaly 2 := by
    unfold continuous_production_monitoring
    have e0 : detect_anomaly (sampleCE 0) ctx1.performance_metrics = false := by
      simp [detect_anomaly, sampleCE, ctx1]
      norm_num
    have e1 : detect_anomaly (sampleCE 1) ctx1.performance_metrics = false := by
      simp [detect_anomaly, sampleCE, ctx1]
      norm_num
    have e2 : detect_anomaly (sampleCE 2) ctx1.performance_metrics = true := by
      simp [detect_anomaly, sampleCE, ctx1]
      norm_num
    have himp : ∀ m : RealtimeMetrics,
        ¬assess_business_impact_severity m > 0.7 := by
      intro m
      norm_num [assess_business_impact_severity]
    unfold monitor_ticks
    simp [e0, himp]
    unfold monitor_ticks
    simp [e1, himp]
    unfold monitor_ticks
    simp [e2]
  have hrun : (execute_autonomous_deployment cfgAll ctx1 sampleCE
      assess_business_impact_severity).failed_stage = some "monitoring" ∧
      (execute_autonomous_deployment cfgAll ctx1 sampleCE
        assess_business_impact_severity).results.map Prod.fst =
        ["validation", "build", "test", "deploy_development", "deploy_staging",
         "deploy_production", "monitoring"] := by
    have h1 : ("production" : String) ≠ "development" := by decide
    have h2 : ("production" : String) ≠ "staging" := by decide
    have m1 : "validation" ∈ cfgAll := by decide
    have m2 : "build" ∈ cfgAll := by decide
    have m3 : "test" ∈ cfgAll := by decide
    have m4 : "deploy-development" ∈ cfgAll := by decide
    have m5 : "deploy-staging" ∈ cfgAll := by decide
    have m6 : "deploy-production" ∈ cfgAll := by decide
    have m7 : "monitoring" ∈ cfgAll := by decide
    unfold execute_autonomous_deployment deployment_stages
    simp [ctx1, h1, h2, run_stages_cons_ok, run_stages_cons_invalid,
      stageConfigName, m1, m2, m3, m4, m5, m6, m7,
      validate_validation_builtin, validate_build_builtin, validate_test_builtin,
      validate_deploy_development_builtin, validate_deploy_staging_builtin,
      validate_deploy_production_builtin, validate_monitoring_builtin, stageValue]
  refine ⟨hmon,
    run_stages_monitor_independent cfgAll ctx1 sampleCE sampleQuiet
      assess_business_impact_severity assess_business_impact_severity
      (deployment_stages ctx1.environment) [], ?_, hrun.2⟩
  rw [hrun.1]
  decide

/-- A staging context whose overall score lands in the conditional band
(risk score 0, overall 123/160 = 0.76875). -/
def ctx2 : DeploymentContext :=
  ⟨"staging", "4.0.0", "blue-green", ⟨80, 0.6, 0, 0.6, 0.6, 0.5⟩,
   ⟨250, 2000, 0.2, 50, 50, 100⟩, ⟨1, 0.6, 0.9, RiskLevel.low, false, false⟩,
   zeroRisk, noHistory⟩

/-- No risk trigger fires for ctx2. -/
theorem ctx2_risk_score : (analyze_deployment_risk ctx2).overall_risk_score = 0 := by
  norm_num [analyze_deployment_risk, ctx2]

/-- The overall score of ctx2 after the risk backfill. -/
theorem ctx2_overall :
    overall_score { ctx2 with risk_assessment := analyze_deployment_risk ctx2 } =
      123 / 160 := by
  have heq : overall_score
      { ctx2 with risk_assessment := analyze_deployment_risk ctx2 } =
      (calculate_quality_score ctx2.quality_metrics +
       calculate_performance_score ctx2.performance_metrics +
       calculate_security_score ctx2.security_assessment +
       (1 - (analyze_deployment_risk ctx2).overall_risk_score)) / 4 := rfl
  rw [heq, ctx2_risk_score]
  norm_num [calculate_quality_score, calculate_performance_score,
    calculate_security_score, ctx2, min_def, max_def]

/-- The decision for ctx2 is conditional with the two fixed conditions. -/
theorem ctx2_decision :
    make_deployment_decision []
      { ctx2 with risk_assessment := analyze_deployment_risk ctx2 } =
      { decision := "conditional", confidence := 123 / 160,
        reasoning := ["Moderate quality score, conditions required"],
        conditions := ["enhanced_monitoring", "gradual_rollout"],
        recommended_actions := ["Monitor key metrics closely"],
        autonomous_execution := false } := by
  simp [make_deployment_decision, ctx2_overall]
  norm_num

/-- C2 amended: when the decision on the backfilled context is
conditional, the orchestrator invokes no stage: the outcome is a
conditional_success result recording the decision conditions, not an
executed pipeline result. -/
theorem c2_amended_conditional_runs_no_stages
    (config_stages : List String) (decision_rules : List DecisionRule)
    (context0 : DeploymentContext) (sample : ℕ → RealtimeMetrics)
    (assess_severity : RealtimeMetrics → ℚ)
    (hcond : (make_deployment_decision decision_rules
      { context0 with risk_assessment := analyze_deployment_risk context0
        }).decision = "conditional") :
    (orchestrate_deployment config_stages decision_rules context0 sample
      assess_severity).result =
      OrchestrationResult.conditional_success
        (make_deployment_decision decision_rules
          { context0 with risk_assessment := analyze_deployment_risk context0
            }).conditions := by
  have hne : ¬((make_deployment_decision decision_rules
      { context0 with risk_assessment := analyze_deployment_risk context0
        }).decision = "approve" ∧
      (make_deployment_decision decision_rules
        { context0 with risk_assessment := analyze_deployment_risk context0
          }).autonomous_execution = true) := by
    intro hand
    obtain ⟨ha, _⟩ := hand
    rw [hcond] at ha
    exact absurd ha (by decide)
  simp [orchestrate_deployment, execute_conditional_deployment, hne, hcond]

/-- Witness for the amended C2 at the concrete conditional context. -/
theorem c2_amended_conditional_runs_no_stages_witness :
    (orchestrate_deployment cfgAll [] ctx2 sample0
      assess_business_impact_severity).result =
      OrchestrationResult.conditional_success
        (make_deployment_decision []
          { ctx2 with risk_assessment := analyze_deployment_risk ctx2
            }).conditions :=
  c2_amended_conditional_runs_no_stages cfgAll [] ctx2 sample0
    assess_business_impact_severity (by rw [ctx2_decision])

/-- C2 counterexample: a concrete request whose decision is conditional
yields a conditional_success outcome that records the attached conditions
but is not an executed pipeline result: no stage ran. -/
theorem c2_counterexample_conditional_skips_pipeline :
    (orchestrate_deployment cfgAll [] ctx2 sample0
      assess_business_impact_severity).decision.decision = "conditional" ∧
    (orchestrate_deployment cfgAll [] ctx2 sample0
      assess_business_impact_severity).result =
      OrchestrationResult.conditional_success
        ["enhanced_monitoring", "gradual_rollout"] ∧
    (∀ run : RunResult,
      (orchestrate_deployment cfgAll [] ctx2 sample0
        assess_business_impact_severity).result ≠
        OrchestrationResult.executed run) := by
  have hres : orchestrate_deployment cfgAll [] ctx2 sample0
      assess_business_impact_severity =
      { decision :=
          { decision := "conditional", confidence := 123 / 160,
            reasoning := ["Moderate quality score, conditions required"],
            conditions := ["enhanced_monitoring", "gradual_rollout"],
            recommended_actions := ["Monitor key metrics closely"],
            autonomous_execution := false },
        result := OrchestrationResult.conditional_success
          ["enhanced_monitoring", "gradual_rollout"] } := by
    simp [orchestrate_deployment, execute_conditional_deployment, ctx2_decision]
  refine ⟨by rw [hres], by rw [hres], ?_⟩
  intro run
  rw [hres]
  simp

end DeployOrch
